import Mathlib

/-!
Verification of the MapaApuracaoRetencoes fiscal rules engine.

Shallow embedding of `src/rules_engine.py` (and the rule loader it exposes),
the fiscal retention engine of the repository.  Python dictionaries carrying
invoice data are modelled as partial maps `String → Option Value`; Python
floats are modelled as exact rationals `ℚ` (all arithmetic performed by the
engine is plain multiplication, addition and subtraction of decimal
constants, so the algebraic structure of the computation is preserved);
Python exceptions raised while a single invoice is processed are modelled by
an explicit error constructor in the engine's result type.

The consensus resolvers called at the top of `processar_regras_fiscais`
(`escolher_lc116_com_consenso`, `escolher_cnae_com_consenso`,
`escolher_reinf_com_consenso`, `buscar_aliquota_iss`) are explicit
placeholders in the source; their outputs (the resolved LC 116 code, the
resolved CNAE row, the resolved REINF code and the ISS rate) are taken as
parameters of the embedded engine, which embeds the source from the triage
gate (line 99) to the returned `mapa_data` dictionary (line 172).
-/

/-- A value stored in one of the Python dictionaries handled by the engine:
a string, a number (Python float, modelled exactly as a rational) or a list
of strings (the `observacoes_legais` entry). -/
inductive Value where
  | str (s : String)
  | num (q : ℚ)
  | list (l : List String)
deriving DecidableEq

/-- A Python dictionary with string keys, as a partial map. -/
abbrev Dict := String → Option Value

/-- The empty dictionary. -/
def Dict.empty : Dict := fun _ => none

/-- Insertion: `d.insert k v` models the Python assignment `d[k] = v` (and a later
entry of a dict literal overriding an earlier one). -/
def Dict.insert (d : Dict) (k : String) (v : Value) : Dict :=
  fun q => if q = k then some v else d q

/-- Insert a list of entries left to right, so that later entries override
earlier ones and every entry overrides `d`, exactly as the dict literal
`{**d, k1: v1, ..., kn: vn}` does. -/
def Dict.insertAll (d : Dict) (l : List (String × Value)) : Dict :=
  l.foldl (fun acc kv => acc.insert kv.1 kv.2) d

/-- A Python exception escaping `processar_regras_fiscais` while a single
invoice is processed: `keyError` models a `KeyError` on a direct dictionary
subscript, `attrError` an `AttributeError` (e.g. `.upper()` on a non-string)
and `convError` a `ValueError`/`TypeError` from the `float(...)` conversion. -/
inductive PyError where
  | keyError (key : String)
  | attrError (attr : String)
  | convError (what : String)
deriving DecidableEq

/-- Outcome of `processar_regras_fiscais` for one invoice: the manual-review
signal (the source returns `None`), an uncaught Python exception, or the
assembled `mapa_data` dictionary. -/
inductive EngineResult where
  | manual
  | err (e : PyError)
  | mapa (m : Dict)

/-- Whether the engine produced a `mapa_data` record. -/
def EngineResult.isMapa : EngineResult → Bool
  | .mapa _ => true
  | _ => false

/-- Lookup of a key in the produced `mapa_data` record (`none` when the
engine did not produce a record). -/
def EngineResult.getKey : EngineResult → String → Option Value
  | .mapa m, k => m k
  | _, _ => none

/-- Regime flags: `simples_status` as built in `main.py`, the two regime flags read with
`.get(..., False)` by the engine. -/
structure SimplesStatus where
  is_optante_simples : Bool
  is_simei : Bool
deriving DecidableEq

/-- Operator configuration (`user_config`) fields read by the engine. -/
structure UserConfig where
  nome_unidade : String
  substituto_tributario : Bool
  possui_cebas : Bool
deriving DecidableEq

/-- The resolved LC 116 service-law entry (`lc116_final`). -/
structure Lc116Info where
  codigo : String
  descricao : String
deriving DecidableEq

/-- The resolved CNAE activity row (`cnae_final`). -/
structure CnaeInfo where
  codigo : String
  descricao : String
  anexo : String
  retencao : String
  art219 : String
deriving DecidableEq

/-- The resolved REINF entry (`reinf_final`). -/
structure ReinfInfo where
  codigo : String
  descricao : String
deriving DecidableEq

/-- From `config.py` line 47: service codes that are exceptions for non-Simples
companies (`CODIGOS_SERVICO_EXCECAO_NAO_OPTANTE`). -/
def CODIGOS_SERVICO_EXCECAO_NAO_OPTANTE : List String :=
  ["7.11", "7.12", "3.01", "10.09"]

/-- Python substring containment `pat in s` over character lists. -/
def charsStartsWith : List Char → List Char → Bool
  | [], _ => true
  | _ :: _, [] => false
  | a :: as, b :: bs => a == b && charsStartsWith as bs

/-- Helper for `pyInStr`: does `pat` occur inside `s`? -/
def charsContains (s pat : List Char) : Bool :=
  match s with
  | [] => pat == []
  | _ :: t => charsStartsWith pat s || charsContains t pat

/-- Models the Python expression `pat in s` on strings. -/
def pyInStr (pat s : String) : Bool :=
  charsContains s.data pat.data

/-- Models Python `str.upper()` (the source's `.upper()` calls at line 116),
written over the character list.  `Char.toUpper` maps ASCII letters only;
the comparison below is case-insensitive exact matching either way. -/
def pyUpper (s : String) : String :=
  String.mk (s.data.map Char.toUpper)

/-- Models the Python format specifier `{q:.2%}` used in the ISS
justification: the value as a percentage with two decimal places.  (The
rounding of the scaled value is immaterial to every property proved here;
the source formats a binary float with round-half-even.) -/
def format_percent_2 (q : ℚ) : String :=
  let cents : ℤ := round (q * 10000)
  let sign := if cents < 0 then "-" else ""
  let n := cents.natAbs
  sign ++ toString (n / 100) ++ "." ++ (if n % 100 < 10 then "0" else "") ++
    toString (n % 100) ++ "%"

/-- From `rules_engine.py` line 105: `float(dados_nf.get('valor_total', 0.0))`.
A missing key silently defaults to `0.0`; a numeric value is taken as is
(numeric fields extracted upstream are modelled as `Value.num`); `float(...)`
of a list raises, and a non-numeric string raises `ValueError`, both modelled
as `none`. -/
def get_valor_total (d : Dict) : Option ℚ :=
  match d "valor_total" with
  | none => some 0
  | some (Value.num q) => some q
  | some (Value.str _) => none
  | some (Value.list _) => none

/-- From `rules_engine.py` lines 109-123, the ISS retention branch.  Returns the
retained amount and the single justification appended by the branch, or the
Python exception raised at line 116 when a municipality key is missing
(`KeyError`) or holds a non-string (`AttributeError` on `.upper()`). -/
def iss_branch (dados_nf : Dict) (simples_status : SimplesStatus)
    (user_config : UserConfig) (lc116_codigo : String)
    (aliquota_iss valor_total : ℚ) : Except PyError (ℚ × String) :=
  if simples_status.is_simei then
    .ok (0, "ISS não retido (fornecedor SIMEI).")
  else if lc116_codigo == "3.01" then
    .ok (0, "ISS não retido (serviço código 3.01 da LC 116).")
  else
    match dados_nf "municipio_prestador" with
    | none => .error (.keyError "municipio_prestador")
    | some (Value.num _) => .error (.attrError "upper")
    | some (Value.list _) => .error (.attrError "upper")
    | some (Value.str mp) =>
      match dados_nf "municipio_tomador" with
      | none => .error (.keyError "municipio_tomador")
      | some (Value.num _) => .error (.attrError "upper")
      | some (Value.list _) => .error (.attrError "upper")
      | some (Value.str mt) =>
        if pyUpper mp == pyUpper mt then
          if user_config.substituto_tributario then
            .ok (valor_total * aliquota_iss,
              "ISS retido (" ++ format_percent_2 aliquota_iss ++
                ") pelo tomador (mesmo município e substituto tributário).")
          else
            .ok (0, "ISS não retido (unidade não é substituto tributário).")
        else
          .ok (0, "ISS não retido (devido no município do prestador).")

/-- From `rules_engine.py` lines 125-139, the INSS retention branch: the retained
amount and the single justification appended by the branch. -/
def inss_branch (simples_status : SimplesStatus) (user_config : UserConfig)
    (cnae_final : CnaeInfo) (valor_total : ℚ) : ℚ × String :=
  if simples_status.is_simei then
    if user_config.possui_cebas then
      (valor_total * 0.20, "INSS retido (20%) - Fornecedor SIMEI e tomador com CEBAS.")
    else
      (0, "INSS não retido (fornecedor SIMEI sem tomador com CEBAS).")
  else if simples_status.is_optante_simples then
    if cnae_final.anexo == "IV" && pyUpper cnae_final.retencao == "SIM" then
      (valor_total * 0.11,
        "INSS retido (11%) - Optante do Simples, Anexo IV e serviço sujeito à retenção.")
    else
      (0, "INSS não retido (Optante do Simples fora das regras de retenção).")
  else
    (0, "INSS não retido (Não Optante do Simples - regra geral).")

/-- From `rules_engine.py` lines 141-144, the IRRF branch: the retained amount
and the justification it appends — the source appends one only when the
code is `10.09`, hence the `Option`. -/
def irrf_branch (lc116_codigo : String) (valor_total : ℚ) : ℚ × Option String :=
  if lc116_codigo == "10.09" then
    (valor_total * 0.015, some "IRRF retido (1.5%) para serviços de intermediação (10.09).")
  else
    (0, none)

/-- From `rules_engine.py` line 162: the displayed INSS rate is reconstructed by
searching the text of the *last* justification for the substring `11%`. -/
def aliquota_inss_display (inss : ℚ) (justificativas : List String) : ℚ :=
  if inss > 0 ∧ pyInStr "11%" (justificativas.getLastD "") = true then 0.11
  else if inss > 0 then 0.20 else 0

/-- From `rules_engine.py` lines 146-171: assembly of the `mapa_data` dictionary
from the invoice fields and the branch outcomes (the ISS outcome is passed
in because its branch can raise; the INSS and IRRF branches are pure and are
invoked here, matching the values the source computed just above the
literal). -/
def montar_mapa (dados_nf : Dict) (simples_status : SimplesStatus)
    (user_config : UserConfig) (lc116_final : Lc116Info) (cnae_final : CnaeInfo)
    (reinf_final : ReinfInfo) (aliquota_iss valor_total iss : ℚ)
    (issJust : String) : Dict :=
  let inssR := inss_branch simples_status user_config cnae_final valor_total
  let irrfR := irrf_branch lc116_final.codigo valor_total
  let justificativas : List String :=
    [issJust, inssR.2] ++ (match irrfR.2 with | some j => [j] | none => [])
  let total_retencoes : ℚ := iss + inssR.1 + irrfR.1 + 0
  dados_nf.insertAll [
    ("unidade", .str user_config.nome_unidade),
    ("optante_simples_str", .str (if simples_status.is_optante_simples then "SIM" else "NÃO")),
    ("cod_servico_lc116", .str lc116_final.codigo),
    ("desc_lc116", .str lc116_final.descricao),
    ("cnae_codigo", .str cnae_final.codigo),
    ("cnae_descricao", .str cnae_final.descricao),
    ("cnae_anexo", .str cnae_final.anexo),
    ("cnae_art_219", .str cnae_final.art219),
    ("codigo_reinf", .str reinf_final.codigo),
    ("descricao_reinf", .str reinf_final.descricao),
    ("aliquota_iss", .num aliquota_iss),
    ("valor_iss_retido", .num iss),
    ("aliquota_inss", .num (aliquota_inss_display inssR.1 justificativas)),
    ("valor_inss_retido", .num inssR.1),
    ("aliquota_irrf", .num (if irrfR.1 > 0 then 0.015 else 0)),
    ("valor_irrf_retido", .num irrfR.1),
    ("aliquota_csrf", .num 0),
    ("valor_csrf_retido", .num 0),
    ("valor_total_retencoes", .num total_retencoes),
    ("valor_liquido", .num (valor_total - total_retencoes)),
    ("observacoes_legais", .list justificativas)
  ]

/-- A loaded spreadsheet (`pandas.read_excel` result): column names and
rows. -/
structure Df where
  cols : List String
  rows : List (List Value)
deriving DecidableEq

/-- From `rules_engine.py` line 21: normalization applied to one column name
(`col.lower().replace(' ', '_').replace('ç', 'c').replace('ã', 'a')`). -/
def normalize_col (c : String) : String :=
  ((c.toLower.replace " " "_").replace "ç" "c").replace "ã" "a"

/-- From `rules_engine.py` lines 19-23, `_normalize_df_columns`. -/
def _normalize_df_columns (df : Df) : Df :=
  { df with cols := df.cols.map normalize_col }

/-- Outcome of reading one of the three rule files from disk:
`FileNotFoundError`, any other read/parse exception (carrying the exception
text `str(e)`), or the parsed content. -/
inductive FileRead (α : Type) where
  | missing
  | malformed (msg : String)
  | ok (a : α)
deriving DecidableEq

/-- Whether a file read succeeded. -/
def FileRead.isOk {α : Type} : FileRead α → Bool
  | .ok _ => true
  | _ => false

/-- The fully loaded rule set (`rules` dict): CNAE table, REINF table, and
the LC 116 code-to-description map (kept as the parsed association list;
the source stores it in a dict keyed by code). -/
structure Rules where
  cnae : Df
  reinf : Df
  lc116 : List (String × String)

/-- Python `\s` (whitespace) for the LC 116 line regex. -/
def isPySpace (c : Char) : Bool :=
  c == ' ' || c == '\t' || c == '\n' || c == '\r' || c == '\x0b' || c == '\x0c'

/-- From `rules_engine.py` lines 36-39: matching one line of the service-law
file against `^\s*([\d\.]+)\s*-\s*(.*)` and stripping both groups.  A line
that does not match is skipped (`none`). -/
def parse_lc116_line (line : String) : Option (String × String) :=
  let rest1 := line.data.dropWhile isPySpace
  let code := rest1.takeWhile (fun c => c.isDigit || c == '.')
  if code.isEmpty then none
  else
    match (rest1.drop code.length).dropWhile isPySpace with
    | [] => none
    | c :: rest3 =>
      if c == '-' then
        some (String.mk code, (String.mk (rest3.dropWhile isPySpace)).trimRight)
      else none

/-- From `rules_engine.py` lines 25-48, `load_all_rules`.  The three file reads
are parameters (the source performs them in this order and any raised
exception skips the remaining reads); the source prints a fatal-error line
and returns `None` on failure, modelled as `Except.error` carrying the
printed message — `FileNotFoundError` produces a message naming the failing
file (`e.filename`), while any other exception produces the generic message
with only the exception text. -/
def load_all_rules (cnae_path reinf_path lc116_path : String)
    (cnae_file reinf_file : FileRead Df) (lc116_file : FileRead (List String)) :
    Except String Rules :=
  match cnae_file with
  | .missing => .error ("Arquivo de regra não encontrado: " ++ cnae_path)
  | .malformed e => .error ("Falha ao ler os arquivos de regras: " ++ e)
  | .ok cnae_df =>
    match reinf_file with
    | .missing => .error ("Arquivo de regra não encontrado: " ++ reinf_path)
    | .malformed e => .error ("Falha ao ler os arquivos de regras: " ++ e)
    | .ok reinf_df =>
      match lc116_file with
      | .missing => .error ("Arquivo de regra não encontrado: " ++ lc116_path)
      | .malformed e => .error ("Falha ao ler os arquivos de regras: " ++ e)
      | .ok lines =>
        .ok { cnae := _normalize_df_columns cnae_df,
              reinf := _normalize_df_columns reinf_df,
              lc116 := lines.filterMap parse_lc116_line }

/-- From `rules_engine.py` lines 85-172, `processar_regras_fiscais`, from the
triage gate on (the stubbed consensus resolvers that precede it are
parameters, see the module docstring): triage for non-Simples providers,
`valor_total` conversion, the ISS branch (whose municipality subscripts can
raise), then assembly of `mapa_data`. -/
def processar_regras_fiscais (dados_nf : Dict) (simples_status : SimplesStatus)
    (user_config : UserConfig) (lc116_final : Lc116Info) (cnae_final : CnaeInfo)
    (reinf_final : ReinfInfo) (aliquota_iss : ℚ) : EngineResult :=
  if !simples_status.is_optante_simples &&
      !(CODIGOS_SERVICO_EXCECAO_NAO_OPTANTE.contains lc116_final.codigo) then
    .manual
  else
    match get_valor_total dados_nf with
    | none => .err (.convError "valor_total")
    | some valor_total =>
      match iss_branch dados_nf simples_status user_config lc116_final.codigo
          aliquota_iss valor_total with
      | .error e => .err e
      | .ok (iss, issJust) =>
        .mapa (montar_mapa dados_nf simples_status user_config lc116_final
          cnae_final reinf_final aliquota_iss valor_total iss issJust)

/-- The keys written by the Result Assembler over the spread invoice fields
(`rules_engine.py` lines 150-170). -/
def mapa_engine_keys : List String :=
  ["unidade", "optante_simples_str", "cod_servico_lc116", "desc_lc116",
   "cnae_codigo", "cnae_descricao", "cnae_anexo", "cnae_art_219",
   "codigo_reinf", "descricao_reinf", "aliquota_iss", "valor_iss_retido",
   "aliquota_inss", "valor_inss_retido", "aliquota_irrf", "valor_irrf_retido",
   "aliquota_csrf", "valor_csrf_retido", "valor_total_retencoes",
   "valor_liquido", "observacoes_legais"]

/-! Concrete fixtures, used by witnesses and counterexamples. -/

/-- A well-formed invoice dict: total 1000, matching municipalities, and a
passthrough field coming from the extractor. -/
def dNF : Dict := fun k =>
  if k = "valor_total" then some (.num 1000)
  else if k = "municipio_prestador" then some (.str "SAO PAULO")
  else if k = "municipio_tomador" then some (.str "SAO PAULO")
  else if k = "nome_fornecedor" then some (.str "ACME LTDA")
  else none

/-- Like `dNF` but with total value 0. -/
def dNFzero : Dict := fun k =>
  if k = "valor_total" then some (.num 0)
  else if k = "municipio_prestador" then some (.str "SAO PAULO")
  else if k = "municipio_tomador" then some (.str "SAO PAULO")
  else none

/-- Like `dNF` but with no `valor_total` key at all. -/
def dNFnoTotal : Dict := fun k =>
  if k = "municipio_prestador" then some (.str "SAO PAULO")
  else if k = "municipio_tomador" then some (.str "SAO PAULO")
  else none

/-- An invoice dict with the total value only (no municipality keys). -/
def dNFnoMuni : Dict := fun k =>
  if k = "valor_total" then some (.num 1000) else none

def sOpt : SimplesStatus := ⟨true, false⟩
def sSimei : SimplesStatus := ⟨true, true⟩
def sNao : SimplesStatus := ⟨false, false⟩
def uSub : UserConfig := ⟨"TESTE", true, false⟩
def uCebas : UserConfig := ⟨"TESTE", true, true⟩
def lcStd : Lc116Info := ⟨"1.07", "Suporte Técnico"⟩
def lc1009 : Lc116Info := ⟨"10.09", "Intermediação de serviços"⟩
def cnaeV : CnaeInfo := ⟨"6204000", "Consultoria em TI", "V", "NAO", ""⟩
def cnaeIV : CnaeInfo := ⟨"6201501", "Desenvolvimento de software", "IV", "SIM", "Art. 219"⟩
def reinfTI : ReinfInfo := ⟨"01.01", "Serviços de Tecnologia"⟩
def dfNil : Df := ⟨[], []⟩

/-- The four no-ISS conditions of C2 for an eligible invoice: SIMEI
provider, service code `3.01`, municipalities that differ under
case-insensitive exact comparison, or same municipality without the
withholding-substitute flag. -/
def iss_zero_conditions (s : SimplesStatus) (u : UserConfig)
    (codigo mp mt : String) : Prop :=
  s.is_simei = true ∨ codigo = "3.01" ∨ pyUpper mp ≠ pyUpper mt ∨
    (pyUpper mp = pyUpper mt ∧ u.substituto_tributario = false)

instance (s : SimplesStatus) (u : UserConfig) (codigo mp mt : String) :
    Decidable (iss_zero_conditions s u codigo mp mt) := by
  unfold iss_zero_conditions
  infer_instance

/-- Number of entries of the `observacoes_legais` list of a produced
record (0 when no record was produced). -/
def obs_count (res : EngineResult) : Nat :=
  match res.getKey "observacoes_legais" with
  | some (Value.list js) => js.length
  | _ => 0

/-- Whether a loader run produced a full rule set. -/
def exceptIsOk {ε α : Type} : Except ε α → Bool
  | .ok _ => true
  | .error _ => false

/-! Shared helper lemmas. -/

/-- Every successful run of the engine parses `valor_total`, runs the ISS
branch without raising, and returns the assembled record. -/
theorem processar_eq_mapa {d : Dict} {s : SimplesStatus} {u : UserConfig}
    {l : Lc116Info} {c : CnaeInfo} {r : ReinfInfo} {q : ℚ}
    (h : (processar_regras_fiscais d s u l c r q).isMapa = true) :
    ∃ vt iss issJ, get_valor_total d = some vt ∧
      iss_branch d s u l.codigo q vt = .ok (iss, issJ) ∧
      processar_regras_fiscais d s u l c r q =
        .mapa (montar_mapa d s u l c r q vt iss issJ) := by
  unfold processar_regras_fiscais at h ⊢
  split at h
  next htri => simp [EngineResult.isMapa] at h
  next htri =>
    rw [if_neg htri]
    split at h
    next hvt => simp [EngineResult.isMapa] at h
    next vt hvt =>
      rw [hvt]
      split at h
      next e hbr => simp [EngineResult.isMapa] at h
      next iss issJ hbr =>
        exact ⟨vt, iss, issJ, rfl, hbr, rfl⟩

theorem montar_lookup_iss (d : Dict) (s : SimplesStatus) (u : UserConfig)
    (l : Lc116Info) (c : CnaeInfo) (r : ReinfInfo) (q vt iss : ℚ) (issJ : String) :
    montar_mapa d s u l c r q vt iss issJ "valor_iss_retido" = some (.num iss) := rfl

theorem montar_lookup_inss (d : Dict) (s : SimplesStatus) (u : UserConfig)
    (l : Lc116Info) (c : CnaeInfo) (r : ReinfInfo) (q vt iss : ℚ) (issJ : String) :
    montar_mapa d s u l c r q vt iss issJ "valor_inss_retido"
      = some (.num (inss_branch s u c vt).1) := rfl

theorem montar_lookup_irrf (d : Dict) (s : SimplesStatus) (u : UserConfig)
    (l : Lc116Info) (c : CnaeInfo) (r : ReinfInfo) (q vt iss : ℚ) (issJ : String) :
    montar_mapa d s u l c r q vt iss issJ "valor_irrf_retido"
      = some (.num (irrf_branch l.codigo vt).1) := rfl

theorem montar_lookup_csrf (d : Dict) (s : SimplesStatus) (u : UserConfig)
    (l : Lc116Info) (c : CnaeInfo) (r : ReinfInfo) (q vt iss : ℚ) (issJ : String) :
    montar_mapa d s u l c r q vt iss issJ "valor_csrf_retido" = some (.num 0) := rfl

theorem montar_lookup_total (d : Dict) (s : SimplesStatus) (u : UserConfig)
    (l : Lc116Info) (c : CnaeInfo) (r : ReinfInfo) (q vt iss : ℚ) (issJ : String) :
    montar_mapa d s u l c r q vt iss issJ "valor_total_retencoes"
      = some (.num (iss + (inss_branch s u c vt).1 + (irrf_branch l.codigo vt).1 + 0)) := rfl

theorem montar_lookup_liquido (d : Dict) (s : SimplesStatus) (u : UserConfig)
    (l : Lc116Info) (c : CnaeInfo) (r : ReinfInfo) (q vt iss : ℚ) (issJ : String) :
    montar_mapa d s u l c r q vt iss issJ "valor_liquido"
      = some (.num (vt - (iss + (inss_branch s u c vt).1 + (irrf_branch l.codigo vt).1 + 0))) := rfl

theorem montar_lookup_obs (d : Dict) (s : SimplesStatus) (u : UserConfig)
    (l : Lc116Info) (c : CnaeInfo) (r : ReinfInfo) (q vt iss : ℚ) (issJ : String) :
    montar_mapa d s u l c r q vt iss issJ "observacoes_legais"
      = some (.list ([issJ, (inss_branch s u c vt).2] ++
          (match (irrf_branch l.codigo vt).2 with | some j => [j] | none => []))) := rfl

theorem montar_lookup_aliquota_inss (d : Dict) (s : SimplesStatus) (u : UserConfig)
    (l : Lc116Info) (c : CnaeInfo) (r : ReinfInfo) (q vt iss : ℚ) (issJ : String) :
    montar_mapa d s u l c r q vt iss issJ "aliquota_inss"
      = some (.num (aliquota_inss_display (inss_branch s u c vt).1
          ([issJ, (inss_branch s u c vt).2] ++
            (match (irrf_branch l.codigo vt).2 with | some j => [j] | none => [])))) := rfl

/-- A key absent from an entry list is looked up in the underlying dict. -/
theorem insertAll_lookup_not_mem (d : Dict) (l : List (String × Value)) (k : String)
    (h : k ∉ l.map Prod.fst) : d.insertAll l k = d k := by
  induction l generalizing d with
  | nil => rfl
  | cons p t ih =>
    simp only [List.map_cons, List.mem_cons] at h
    push_neg at h
    rw [Dict.insertAll, List.foldl_cons]
    have ht := ih (d := d.insert p.1 p.2) h.2
    rw [Dict.insertAll] at ht
    rw [ht]
    show (if k = p.1 then some p.2 else d k) = d k
    rw [if_neg h.1]

/-- The assembled record agrees with the invoice dict outside the engine
keys. -/
theorem montar_mapa_frame (d : Dict) (s : SimplesStatus) (u : UserConfig)
    (l : Lc116Info) (c : CnaeInfo) (r : ReinfInfo) (q vt iss : ℚ) (issJ : String)
    (k : String) (hk : k ∉ mapa_engine_keys) :
    montar_mapa d s u l c r q vt iss issJ k = d k := by
  show Dict.insertAll d _ k = d k
  exact insertAll_lookup_not_mem d _ k hk

/-! Claims. -/

/-- C1. For every invoice where `is_optante_simples` is false and the
resolved LC 116 code is not in `CODIGOS_SERVICO_EXCECAO_NAO_OPTANTE`, the
engine returns the manual-review outcome (`None`) and never a MAPA record.
The theorem holds for *every* invoice dict, including ones whose later
processing would raise or whose total is missing, showing the triage
decision is taken before any retention amount is computed. -/
theorem triage_non_optante_manual (d : Dict) (s : SimplesStatus) (u : UserConfig)
    (l : Lc116Info) (c : CnaeInfo) (r : ReinfInfo) (q : ℚ)
    (h1 : s.is_optante_simples = false)
    (h2 : l.codigo ∉ CODIGOS_SERVICO_EXCECAO_NAO_OPTANTE) :
    processar_regras_fiscais d s u l c r q = .manual := by
  have hc : CODIGOS_SERVICO_EXCECAO_NAO_OPTANTE.contains l.codigo = false := by
    cases hmem : CODIGOS_SERVICO_EXCECAO_NAO_OPTANTE.contains l.codigo with
    | false => rfl
    | true => exact absurd (by simpa using hmem) h2
  unfold processar_regras_fiscais
  rw [if_pos]
  rw [h1, hc]
  rfl

/-- Witness for C1 at a concrete non-optante invoice with code `1.07`. -/
theorem triage_non_optante_manual_witness :
    processar_regras_fiscais dNF sNao uSub lcStd cnaeV reinfTI 0.05 = .manual :=
  triage_non_optante_manual dNF sNao uSub lcStd cnaeV reinfTI 0.05 rfl (by decide)

/-- C6. For every eligible invoice, the IRRF amount is
`valor_total * 0.015` exactly when the resolved LC 116 code is `10.09` and
`0` otherwise — quantified over all regime flags, operator configuration,
CNAE data and invoice dicts, so independent of the other branches. -/
theorem irrf_amount_rule (d : Dict) (s : SimplesStatus) (u : UserConfig)
    (l : Lc116Info) (c : CnaeInfo) (r : ReinfInfo) (q vt : ℚ)
    (hvt : get_valor_total d = some vt)
    (hm : (processar_regras_fiscais d s u l c r q).isMapa = true) :
    (processar_regras_fiscais d s u l c r q).getKey "valor_irrf_retido"
      = some (.num (if l.codigo == "10.09" then vt * 0.015 else 0)) := by
  obtain ⟨vt', iss, issJ, hvt', hbr, heq⟩ := processar_eq_mapa hm
  rw [hvt] at hvt'
  injection hvt' with hvteq
  subst hvteq
  rw [heq]
  show montar_mapa d s u l c r q vt iss issJ "valor_irrf_retido" = _
  rw [montar_lookup_irrf]
  unfold irrf_branch
  split
  next => rfl
  next => rfl

/-- Witness for C6: code `10.09`, total 1000 gives IRRF 15. -/
theorem irrf_amount_rule_witness :
    (processar_regras_fiscais dNF sOpt uSub lc1009 cnaeV reinfTI 0.05).getKey
      "valor_irrf_retido" = some (.num 15) := by
  have h := irrf_amount_rule dNF sOpt uSub lc1009 cnaeV reinfTI 0.05 1000 rfl rfl
  rw [h]
  norm_num [lc1009]

/-- C10. Frame property: on every eligible invoice, any key that is not
one of the engine-added output keys is passed through from `dados_nf` to
the returned record unchanged (engine keys shadow identically named invoice
fields via the dict-spread merge). -/
theorem frame_passthrough (d : Dict) (s : SimplesStatus) (u : UserConfig)
    (l : Lc116Info) (c : CnaeInfo) (r : ReinfInfo) (q : ℚ) (k : String)
    (hm : (processar_regras_fiscais d s u l c r q).isMapa = true)
    (hk : k ∉ mapa_engine_keys) :
    (processar_regras_fiscais d s u l c r q).getKey k = d k := by
  obtain ⟨vt, iss, issJ, hvt, hbr, heq⟩ := processar_eq_mapa hm
  rw [heq]
  show montar_mapa d s u l c r q vt iss issJ k = d k
  exact montar_mapa_frame d s u l c r q vt iss issJ k hk

/-- Witness for C10: the extractor field `nome_fornecedor` survives
unchanged in the record. -/
theorem frame_passthrough_witness :
    (processar_regras_fiscais dNF sOpt uSub lcStd cnaeV reinfTI 0.05).getKey
      "nome_fornecedor" = some (.str "ACME LTDA") := by
  have h := frame_passthrough dNF sOpt uSub lcStd cnaeV reinfTI 0.05
    "nome_fornecedor" rfl (by decide)
  rw [h]
  rfl

/-- C9. For every eligible invoice, `valor_total_retencoes` equals the
sum of the four per-tax retained amounts and `valor_liquido` equals
`valor_total` minus `valor_total_retencoes`, exactly. -/
theorem totals_consistency (d : Dict) (s : SimplesStatus) (u : UserConfig)
    (l : Lc116Info) (c : CnaeInfo) (r : ReinfInfo) (q vt iss inss irrf csrf tr lq : ℚ)
    (hvt : get_valor_total d = some vt)
    (hiss : (processar_regras_fiscais d s u l c r q).getKey "valor_iss_retido"
      = some (.num iss))
    (hinss : (processar_regras_fiscais d s u l c r q).getKey "valor_inss_retido"
      = some (.num inss))
    (hirrf : (processar_regras_fiscais d s u l c r q).getKey "valor_irrf_retido"
      = some (.num irrf))
    (hcsrf : (processar_regras_fiscais d s u l c r q).getKey "valor_csrf_retido"
      = some (.num csrf))
    (htr : (processar_regras_fiscais d s u l c r q).getKey "valor_total_retencoes"
      = some (.num tr))
    (hlq : (processar_regras_fiscais d s u l c r q).getKey "valor_liquido"
      = some (.num lq)) :
    tr = iss + inss + irrf + csrf ∧ lq = vt - tr := by
  have hm : (processar_regras_fiscais d s u l c r q).isMapa = true := by
    cases hres : processar_regras_fiscais d s u l c r q with
    | manual => rw [hres] at hiss; exact absurd hiss (by simp [EngineResult.getKey])
    | err e => rw [hres] at hiss; exact absurd hiss (by simp [EngineResult.getKey])
    | mapa m => rfl
  obtain ⟨vt', iss', issJ, hvt', hbr, heq⟩ := processar_eq_mapa hm
  rw [hvt] at hvt'
  injection hvt' with hvteq
  subst hvteq
  rw [heq] at hiss hinss hirrf hcsrf htr hlq
  simp only [EngineResult.getKey] at hiss hinss hirrf hcsrf htr hlq
  rw [montar_lookup_iss] at hiss
  rw [montar_lookup_inss] at hinss
  rw [montar_lookup_irrf] at hirrf
  rw [montar_lookup_csrf] at hcsrf
  rw [montar_lookup_total] at htr
  rw [montar_lookup_liquido] at hlq
  simp only [Option.some.injEq, Value.num.injEq] at hiss hinss hirrf hcsrf htr hlq
  subst hiss hinss hirrf hcsrf htr hlq
  exact ⟨rfl, rfl⟩

/-- Witness for C9 at total 1000 with ISS 5%, INSS 11% and IRRF 1.5% all
retained: 175 total retained, 825 net. -/
theorem totals_consistency_witness :
    (175 : ℚ) = 1000 * 0.05 + 1000 * 0.11 + 1000 * 0.015 + 0 ∧
    (825 : ℚ) = 1000 - 175 :=
  totals_consistency dNF sOpt uSub lc1009 cnaeIV reinfTI 0.05 1000
    (1000 * 0.05) (1000 * 0.11) (1000 * 0.015) 0 175 825
    rfl rfl rfl rfl rfl
    ((show (processar_regras_fiscais dNF sOpt uSub lc1009 cnaeIV reinfTI 0.05).getKey
        "valor_total_retencoes"
        = some (.num (1000 * 0.05 + 1000 * 0.11 + 1000 * 0.015 + 0)) from rfl).trans
      (by norm_num))
    ((show (processar_regras_fiscais dNF sOpt uSub lc1009 cnaeIV reinfTI 0.05).getKey
        "valor_liquido"
        = some (.num (1000 - (1000 * 0.05 + 1000 * 0.11 + 1000 * 0.015 + 0))) from rfl).trans
      (by norm_num))

/-- On an invoice whose municipality fields are present strings, the ISS
branch is the four-way decision of `rules_engine.py` lines 109-123. -/
theorem iss_branch_eq (d : Dict) (s : SimplesStatus) (u : UserConfig)
    (codigo : String) (q vt : ℚ) (mp mt : String)
    (hp : d "municipio_prestador" = some (.str mp))
    (ht : d "municipio_tomador" = some (.str mt)) :
    iss_branch d s u codigo q vt =
      if s.is_simei then .ok (0, "ISS não retido (fornecedor SIMEI).")
      else if codigo == "3.01" then
        .ok (0, "ISS não retido (serviço código 3.01 da LC 116).")
      else if pyUpper mp == pyUpper mt then
        if u.substituto_tributario then
          .ok (vt * q, "ISS retido (" ++ format_percent_2 q ++
            ") pelo tomador (mesmo município e substituto tributário).")
        else .ok (0, "ISS não retido (unidade não é substituto tributário).")
      else .ok (0, "ISS não retido (devido no município do prestador).") := by
  unfold iss_branch
  rw [hp, ht]

/-- C2, amended. For every eligible invoice with present municipality
strings, the ISS amount is 0 whenever one of the four no-ISS conditions
holds, equals `valor_total * aliquota_iss` otherwise, and — provided
`valor_total * aliquota_iss ≠ 0` — is 0 *exactly* when the conditions hold
(at `valor_total = 0` the product is 0 although no condition holds, which
is the sole deviation from the claim as stated); a SIMEI provider always
gets ISS 0. -/
theorem iss_amount_cases (d : Dict) (s : SimplesStatus) (u : UserConfig)
    (l : Lc116Info) (c : CnaeInfo) (r : ReinfInfo) (q vt : ℚ) (mp mt : String)
    (hvt : get_valor_total d = some vt)
    (hp : d "municipio_prestador" = some (.str mp))
    (ht : d "municipio_tomador" = some (.str mt))
    (hm : (processar_regras_fiscais d s u l c r q).isMapa = true) :
    (iss_zero_conditions s u l.codigo mp mt →
      (processar_regras_fiscais d s u l c r q).getKey "valor_iss_retido"
        = some (.num 0)) ∧
    (¬ iss_zero_conditions s u l.codigo mp mt →
      (processar_regras_fiscais d s u l c r q).getKey "valor_iss_retido"
        = some (.num (vt * q))) ∧
    (vt * q ≠ 0 →
      ((processar_regras_fiscais d s u l c r q).getKey "valor_iss_retido"
          = some (.num 0) ↔ iss_zero_conditions s u l.codigo mp mt)) ∧
    (s.is_simei = true →
      (processar_regras_fiscais d s u l c r q).getKey "valor_iss_retido"
        = some (.num 0)) := by
  obtain ⟨vt', iss, issJ, hvt', hbr, heq⟩ := processar_eq_mapa hm
  rw [hvt] at hvt'
  injection hvt' with hvteq
  subst hvteq
  have hkey : (processar_regras_fiscais d s u l c r q).getKey "valor_iss_retido"
      = some (.num iss) := by
    rw [heq]; exact montar_lookup_iss d s u l c r q vt iss issJ
  rw [iss_branch_eq d s u l.codigo q vt mp mt hp ht] at hbr
  have hA : iss_zero_conditions s u l.codigo mp mt → iss = 0 := by
    intro hc
    by_cases hsim : s.is_simei = true
    · rw [if_pos hsim] at hbr
      injection hbr with hpair
      injection hpair with h1 h2
      exact h1.symm
    · rw [if_neg hsim] at hbr
      by_cases hcode : l.codigo = "3.01"
      · rw [if_pos (by simp [hcode])] at hbr
        injection hbr with hpair
        injection hpair with h1 h2
        exact h1.symm
      · rw [if_neg (by simp [hcode])] at hbr
        by_cases hmu : pyUpper mp = pyUpper mt
        · rw [if_pos (by simp [hmu])] at hbr
          have hsub : u.substituto_tributario = false := by
            rcases hc with h | h | h | ⟨_, h⟩
            · exact absurd h hsim
            · exact absurd h hcode
            · exact absurd hmu h
            · exact h
          rw [if_neg (by simp [hsub])] at hbr
          injection hbr with hpair
          injection hpair with h1 h2
          exact h1.symm
        · rw [if_neg (by simp [hmu])] at hbr
          injection hbr with hpair
          injection hpair with h1 h2
          exact h1.symm
  have hB : ¬ iss_zero_conditions s u l.codigo mp mt → iss = vt * q := by
    intro hc
    simp only [iss_zero_conditions, not_or] at hc
    obtain ⟨hsim, hcode, hmu, hsub⟩ := hc
    have hmu' : pyUpper mp = pyUpper mt := not_not.mp hmu
    have hsub' : u.substituto_tributario = true := by
      cases hb : u.substituto_tributario with
      | false => exact absurd ⟨hmu', hb⟩ hsub
      | true => rfl
    rw [if_neg hsim, if_neg (by simp [hcode]), if_pos (by simp [hmu']),
      if_pos hsub'] at hbr
    injection hbr with hpair
    injection hpair with h1 h2
    exact h1.symm
  refine ⟨?_, ?_, ?_, ?_⟩
  · intro hc; rw [hkey, hA hc]
  · intro hc; rw [hkey, hB hc]
  · intro hvq
    constructor
    · intro h0
      by_cases hcond : iss_zero_conditions s u l.codigo mp mt
      · exact hcond
      · rw [hkey, hB hcond] at h0
        simp only [Option.some.injEq, Value.num.injEq] at h0
        exact absurd h0 hvq
    · intro hc; rw [hkey, hA hc]
  · intro hsim; rw [hkey, hA (Or.inl hsim)]

/-- Counterexample to C2 as stated: at total value 0, with matching
municipalities, substitute flag set, non-SIMEI provider and code `1.07`,
the ISS amount is 0 although none of the four no-ISS conditions holds, so
"zero exactly when" fails. -/
theorem iss_exactly_when_counterexample :
    (processar_regras_fiscais dNFzero sOpt uSub lcStd cnaeV reinfTI 0.05).getKey
        "valor_iss_retido" = some (.num 0) ∧
    ¬ iss_zero_conditions sOpt uSub lcStd.codigo "SAO PAULO" "SAO PAULO" := by
  constructor
  · have e : (processar_regras_fiscais dNFzero sOpt uSub lcStd cnaeV reinfTI 0.05).getKey
        "valor_iss_retido" = some (.num (0 * 0.05)) := rfl
    rw [e]
    norm_num
  · decide

/-- Witness for the amended C2: a SIMEI provider gets ISS 0. -/
theorem iss_amount_cases_witness :
    (processar_regras_fiscais dNF sSimei uSub lcStd cnaeV reinfTI 0.05).getKey
      "valor_iss_retido" = some (.num 0) :=
  (iss_amount_cases dNF sSimei uSub lcStd cnaeV reinfTI 0.05 1000 "SAO PAULO" "SAO PAULO"
    rfl rfl rfl rfl).1 (Or.inl rfl)

/-- C3. For every eligible invoice, the INSS amount follows the
case split of `rules_engine.py` lines 125-139: SIMEI with CEBAS retains
20%, SIMEI without CEBAS retains nothing, a Simples-optante (non-SIMEI)
provider retains 11% exactly when the resolved activity's annex is `IV`
and its retention flag is set (the source tests
`str(...).upper() == 'SIM'`, formalized as `pyUpper c.retencao = "SIM"`),
and a non-optante provider retains nothing.  The last case uses the spec's
RegimeStatus invariant that SIMEI implies the simplified regime. -/
theorem inss_amount_cases (d : Dict) (s : SimplesStatus) (u : UserConfig)
    (l : Lc116Info) (c : CnaeInfo) (r : ReinfInfo) (q vt : ℚ)
    (hvt : get_valor_total d = some vt)
    (hreg : s.is_simei = true → s.is_optante_simples = true)
    (hm : (processar_regras_fiscais d s u l c r q).isMapa = true) :
    (s.is_simei = true → u.possui_cebas = true →
      (processar_regras_fiscais d s u l c r q).getKey "valor_inss_retido"
        = some (.num (vt * 0.20))) ∧
    (s.is_simei = true → u.possui_cebas = false →
      (processar_regras_fiscais d s u l c r q).getKey "valor_inss_retido"
        = some (.num 0)) ∧
    (s.is_simei = false → s.is_optante_simples = true → c.anexo = "IV" →
      pyUpper c.retencao = "SIM" →
      (processar_regras_fiscais d s u l c r q).getKey "valor_inss_retido"
        = some (.num (vt * 0.11))) ∧
    (s.is_simei = false → s.is_optante_simples = true →
      ¬ (c.anexo = "IV" ∧ pyUpper c.retencao = "SIM") →
      (processar_regras_fiscais d s u l c r q).getKey "valor_inss_retido"
        = some (.num 0)) ∧
    (s.is_optante_simples = false →
      (processar_regras_fiscais d s u l c r q).getKey "valor_inss_retido"
        = some (.num 0)) := by
  obtain ⟨vt', iss, issJ, hvt', hbr, heq⟩ := processar_eq_mapa hm
  rw [hvt] at hvt'
  injection hvt' with hvteq
  subst hvteq
  have hkey : (processar_regras_fiscais d s u l c r q).getKey "valor_inss_retido"
      = some (.num (inss_branch s u c vt).1) := by
    rw [heq]; exact montar_lookup_inss d s u l c r q vt iss issJ
  refine ⟨?_, ?_, ?_, ?_, ?_⟩
  · intro hs hcb
    rw [hkey]
    unfold inss_branch
    rw [if_pos hs, if_pos hcb]
  · intro hs hcb
    rw [hkey]
    unfold inss_branch
    rw [if_pos hs, if_neg (by simp [hcb])]
  · intro hs hopt hanexo hret
    rw [hkey]
    unfold inss_branch
    rw [if_neg (by simp [hs]), if_pos hopt, if_pos (by simp [hanexo, hret])]
  · intro hs hopt hno
    rw [hkey]
    unfold inss_branch
    rw [if_neg (by simp [hs]), if_pos hopt,
      if_neg (by simp only [Bool.and_eq_true, beq_iff_eq]; exact hno)]
  · intro hopt
    have hs : ¬ s.is_simei = true := fun hsim => absurd (hreg hsim) (by simp [hopt])
    rw [hkey]
    unfold inss_branch
    rw [if_neg hs, if_neg (by simp [hopt])]

/-- Witness for C3: Simples-optante, annex IV, retention flag `SIM`, total
1000 gives INSS 110. -/
theorem inss_amount_cases_witness :
    (processar_regras_fiscais dNF sOpt uSub lcStd cnaeIV reinfTI 0.05).getKey
      "valor_inss_retido" = some (.num 110) := by
  have h := (inss_amount_cases dNF sOpt uSub lcStd cnaeIV reinfTI 0.05 1000
    rfl (by decide) rfl).2.2.1 rfl rfl rfl (by decide)
  rw [h]
  norm_num

/-- Counterexample to C4 as stated: an eligible invoice whose resolved code
is `1.07` produces a record whose justification list has 2 entries, not 4 —
the IRRF branch appends nothing when it does not retain and the CSRF
placeholder appends nothing at all. -/
theorem observacoes_four_counterexample :
    (processar_regras_fiscais dNF sOpt uSub lcStd cnaeV reinfTI 0.05).isMapa = true ∧
    obs_count (processar_regras_fiscais dNF sOpt uSub lcStd cnaeV reinfTI 0.05) = 2 :=
  ⟨rfl, rfl⟩

/-- C4, amended. For every eligible invoice, the ISS and INSS branches
append exactly one justification each (including zero-amount outcomes), the
IRRF branch appends one exactly when it retains (resolved code `10.09`),
and the CSRF placeholder appends none, so `observacoes_legais` has 3
entries when the resolved code is `10.09` and 2 otherwise — never 4. -/
theorem observacoes_count_amended (d : Dict) (s : SimplesStatus) (u : UserConfig)
    (l : Lc116Info) (c : CnaeInfo) (r : ReinfInfo) (q : ℚ)
    (hm : (processar_regras_fiscais d s u l c r q).isMapa = true) :
    obs_count (processar_regras_fiscais d s u l c r q)
      = if l.codigo == "10.09" then 3 else 2 := by
  obtain ⟨vt, iss, issJ, hvt, hbr, heq⟩ := processar_eq_mapa hm
  rw [heq]
  have e : obs_count (EngineResult.mapa (montar_mapa d s u l c r q vt iss issJ))
      = ([issJ, (inss_branch s u c vt).2] ++
          (match (irrf_branch l.codigo vt).2 with
            | some j => [j] | none => [])).length := rfl
  rw [e]
  by_cases hc : (l.codigo == "10.09") = true
  · rw [if_pos hc]
    unfold irrf_branch
    rw [if_pos hc]
    rfl
  · rw [if_neg hc]
    unfold irrf_branch
    rw [if_neg hc]
    rfl

/-- Witness for the amended C4: with code `10.09` the list has 3 entries. -/
theorem observacoes_count_amended_witness :
    obs_count (processar_regras_fiscais dNF sOpt uSub lc1009 cnaeV reinfTI 0.05) = 3 := by
  have h := observacoes_count_amended dNF sOpt uSub lc1009 cnaeV reinfTI 0.05 rfl
  simpa [lc1009] using h

/-- C5, code bug (acknowledged as an open question by the spec): on the
failing input — Simples-optante, annex IV with retention flag set (so the
11% INSS rule fires) *and* resolved code `10.09` (so the IRRF branch also
fires and its justification is the last one) — the assembled record
displays `aliquota_inss = 0.20` while the retained amount is
`1000 × 0.11 = 110`, because line 162 pattern-matches `'11%'` against the
*last* justification string, which is the IRRF text.  So
`valor_inss_retido ≠ valor_total × aliquota_inss` there. -/
theorem aliquota_inss_display_bug :
    (processar_regras_fiscais dNF sOpt uSub lc1009 cnaeIV reinfTI 0.05).getKey
        "aliquota_inss" = some (.num 0.20) ∧
    (processar_regras_fiscais dNF sOpt uSub lc1009 cnaeIV reinfTI 0.05).getKey
        "valor_inss_retido" = some (.num (1000 * 0.11)) ∧
    (1000 : ℚ) * 0.11 = 110 ∧ (0.20 : ℚ) * 1000 ≠ 110 := by
  refine ⟨?_, rfl, by norm_num, by norm_num⟩
  have e : (processar_regras_fiscais dNF sOpt uSub lc1009 cnaeIV reinfTI 0.05).getKey
      "aliquota_inss"
      = some (.num (aliquota_inss_display (1000 * 0.11)
          ["ISS retido (" ++ format_percent_2 0.05 ++
             ") pelo tomador (mesmo município e substituto tributário).",
           "INSS retido (11%) - Optante do Simples, Anexo IV e serviço sujeito à retenção.",
           "IRRF retido (1.5%) para serviços de intermediação (10.09)."])) := rfl
  rw [e]
  unfold aliquota_inss_display
  rw [if_neg (fun hand => absurd hand.2 (by decide)),
    if_pos (by norm_num : (1000 : ℚ) * 0.11 > 0)]

/-- Counterexample to C7 as stated: a present-but-unparsable CNAE file goes
through the generic `except Exception` branch (line 46), whose message
carries only the exception text — it does not name the failing file. -/
theorem load_rules_naming_counterexample :
    load_all_rules "cnae.xlsx" "reinf.xlsx" "servicos_lei_complementar.txt"
        (.malformed "bad excel stream") (.ok dfNil) (.ok [])
      = .error "Falha ao ler os arquivos de regras: bad excel stream" ∧
    pyInStr "cnae.xlsx" "Falha ao ler os arquivos de regras: bad excel stream" = false :=
  ⟨rfl, by decide⟩

/-- C7, amended. The loader `load_all_rules` aborts with an error — never a
partially loaded table set — whenever any of the three reads fails; a
*missing* file produces the fatal message naming that file (the
`FileNotFoundError` branch prints `e.filename`), while other read failures
produce the generic message with only the exception text.  The caller
(`main.py` lines 58-61) exits on the failure result. -/
theorem load_all_rules_abort_amended (cp rp lp : String) (cf rf : FileRead Df)
    (lf : FileRead (List String)) :
    (∀ rules, load_all_rules cp rp lp cf rf lf = .ok rules →
      cf.isOk = true ∧ rf.isOk = true ∧ lf.isOk = true) ∧
    (cf = .missing →
      load_all_rules cp rp lp cf rf lf
        = .error ("Arquivo de regra não encontrado: " ++ cp)) ∧
    (cf.isOk = true → rf = .missing →
      load_all_rules cp rp lp cf rf lf
        = .error ("Arquivo de regra não encontrado: " ++ rp)) ∧
    (cf.isOk = true → rf.isOk = true → lf = .missing →
      load_all_rules cp rp lp cf rf lf
        = .error ("Arquivo de regra não encontrado: " ++ lp)) ∧
    ((cf.isOk = false ∨ rf.isOk = false ∨ lf.isOk = false) →
      exceptIsOk (load_all_rules cp rp lp cf rf lf) = false) := by
  cases cf <;> cases rf <;> cases lf <;>
    simp [load_all_rules, FileRead.isOk, exceptIsOk]

/-- Witness for the amended C7: a missing CNAE file aborts the load with
the message naming it. -/
theorem load_all_rules_abort_amended_witness :
    load_all_rules "cnae.xlsx" "reinf.xlsx" "servicos_lei_complementar.txt"
        .missing (.ok dfNil) (.ok [])
      = .error ("Arquivo de regra não encontrado: " ++ "cnae.xlsx") :=
  (load_all_rules_abort_amended "cnae.xlsx" "reinf.xlsx" "servicos_lei_complementar.txt"
    .missing (.ok dfNil) (.ok [])).2.1 rfl

/-- Counterexample to C8 as stated: an invoice with no `valor_total` key is
processed without any error — line 105 silently substitutes the default
`0.0` — and yields a record with `valor_liquido = 0`; no `ValidationError`
(nor any exception) is raised. -/
theorem validation_missing_total_counterexample :
    dNFnoTotal "valor_total" = none ∧
    (processar_regras_fiscais dNFnoTotal sOpt uSub lcStd cnaeV reinfTI 0.05).isMapa
      = true ∧
    (processar_regras_fiscais dNFnoTotal sOpt uSub lcStd cnaeV reinfTI 0.05).getKey
        "valor_liquido" = some (.num (0 - (0 * 0.05 + 0 + 0 + 0))) ∧
    (0 : ℚ) - (0 * 0.05 + 0 + 0 + 0) = 0 :=
  ⟨rfl, rfl, rfl, by norm_num⟩

/-- C8, amended. A missing `valor_total` is silently defaulted to 0 by
`dados_nf.get('valor_total', 0.0)` — no error is raised for it — while a
missing municipality raises a `KeyError` (caught per invoice by the batch
loop, which routes the file to manual review) exactly when the ISS
location rule is reached: provider not SIMEI, code not `3.01`, and the
invoice passed triage. -/
theorem missing_field_behavior_amended (d : Dict) (s : SimplesStatus)
    (u : UserConfig) (l : Lc116Info) (c : CnaeInfo) (r : ReinfInfo) (q : ℚ) :
    (d "valor_total" = none → get_valor_total d = some 0) ∧
    (s.is_simei = false → l.codigo ≠ "3.01" → d "municipio_prestador" = none →
      (s.is_optante_simples = true ∨ l.codigo ∈ CODIGOS_SERVICO_EXCECAO_NAO_OPTANTE) →
      (get_valor_total d).isSome = true →
      processar_regras_fiscais d s u l c r q = .err (.keyError "municipio_prestador")) := by
  constructor
  · intro h
    unfold get_valor_total
    rw [h]
  · intro hsim hcode hmp htri hvt
    have hcond : (!s.is_optante_simples &&
        !(CODIGOS_SERVICO_EXCECAO_NAO_OPTANTE.contains l.codigo)) = false := by
      rcases htri with hopt | hmem
      · simp [hopt]
      · simp
        exact fun _ => hmem
    obtain ⟨vt, hvt'⟩ := Option.isSome_iff_exists.mp hvt
    have hbr : iss_branch d s u l.codigo q vt = .error (.keyError "municipio_prestador") := by
      unfold iss_branch
      rw [if_neg (by simp [hsim]), if_neg (by simp [hcode]), hmp]
    simp [processar_regras_fiscais, hcond, hvt', hbr]
    intro hopt
    rcases htri with h | h
    · exact absurd h (by simp [hopt])
    · exact h

/-- Witness for the amended C8: a missing total is defaulted to 0; a
missing provider municipality on an eligible non-SIMEI invoice raises
`KeyError`. -/
theorem missing_field_behavior_amended_witness :
    get_valor_total dNFnoTotal = some 0 ∧
    processar_regras_fiscais dNFnoMuni sOpt uSub lcStd cnaeV reinfTI 0.05
      = .err (.keyError "municipio_prestador") :=
  ⟨(missing_field_behavior_amended dNFnoTotal sOpt uSub lcStd cnaeV reinfTI 0.05).1 rfl,
   (missing_field_behavior_amended dNFnoMuni sOpt uSub lcStd cnaeV reinfTI 0.05).2
     rfl (by decide) rfl (Or.inl rfl) rfl⟩
